import Mathlib

/-!
Shallow embedding of the Jarvis room/moderation bot core
(mute reconciler, delayed-unmute task, spam escalation detector,
room lifecycle coordinator), translated from the Rust sources under
`src/`, together with theorems settling the specification claims.

Ids (guild, channel, user) are `Int` (i64 in the source); clock readings
(both the monotonic `Instant` clock and the wall `DateTime` clock) are
`Nat` seconds.
-/

namespace Jarvis

/-! ## Data model (src/db/models) -/

/-- Mirrors `MuteRecord` from src/db/models/mute_record.rs (table `mute_history`). -/
structure MuteRecord where
  guild_id : Int
  channel_id : Int
  muted_user_id : Int
  muted_by_user_id : Int
  is_admin_mute : Bool
  muted_at : Nat
  unmuted_at : Option Nat
deriving DecidableEq, Repr

/-- Mirrors `MuteRecord::is_active` from src/db/models/mute_record.rs. -/
def MuteRecord.is_active (r : MuteRecord) : Bool :=
  r.unmuted_at.isNone

/-- Mirrors `GlobalMute` from src/db/models/global_mute.rs (table `global_mutes`). -/
structure GlobalMute where
  guild_id : Int
  user_id : Int
  detected_at : Nat
  unmuted_at : Option Nat
deriving DecidableEq, Repr

/-- A managed voice channel, `VoiceChannel` from
src/db/models/voice_channel.rs (table `active_voice_channels`). -/
structure VoiceChannel where
  channel_id : Int
  guild_id : Int
  owner_id : Int
  topic : Option String
  tags : List String
deriving DecidableEq, Repr

/-- Mirrors `SpamRecord` from src/db/models/spam_record.rs (table `spam_user_status`). -/
structure SpamRecord where
  guild_id : Int
  user_id : Int
  current_timeout_level : Nat
  last_infraction_at : Option Nat
  total_infractions : Nat
deriving DecidableEq, Repr

/-- Mirrors `SpamRecord::should_reset` from src/db/models/spam_record.rs:
the timeout level should be reset after 30 days of good behavior.
`(Utc::now() - last).num_days()` is whole days of the elapsed duration. -/
def SpamRecord.should_reset (r : SpamRecord) (now : Nat) : Bool :=
  match r.last_infraction_at with
  | some last => 30 ≤ (now - last) / 86400
  | none => true

/-- Mirrors `PendingVcDeadline` from src/db/models/user_vc_preference.rs
(table `pending_vc_deadlines`). -/
structure PendingVcDeadline where
  channel_id : Int
  guild_id : Int
  owner_id : Int
  deadline_at : Nat
deriving DecidableEq, Repr

/-- Mirrors `UserVcPreference` from src/db/models/user_vc_preference.rs
(lookup result of `user_vc_preference::get`). -/
structure UserVcPreference where
  preferred_name : Option String
  preferred_tags : List String
deriving DecidableEq, Repr

/-- Mirrors `GuildConfig` from src/db/models/guild_config.rs (category part). -/
structure GuildConfig where
  category_casual_id : Option Int
  category_debate_id : Option Int
deriving DecidableEq, Repr

/-- Mirrors `GuildConfig::category_id` from src/db/models/guild_config.rs. -/
def GuildConfig.category_id (c : GuildConfig) (casual : Bool) : Option Int :=
  if casual then c.category_casual_id else c.category_debate_id

/-! ## Database tables and queries (src/db/queries) -/

/-- The `mute_history` table, rows in insertion order. -/
abbrev MuteDb := List MuteRecord

/-- The `global_mutes` table. -/
abbrev GlobalDb := List GlobalMute

/-- The `active_voice_channels` table. -/
abbrev VcDb := List VoiceChannel

/-- The `spam_user_status` table. -/
abbrev SpamDb := List SpamRecord

/-- Row match for an active mute of `user_id` in `channel_id`
(the `WHERE channel_id = $1 AND muted_user_id = $2 AND unmuted_at IS NULL`
condition used throughout src/db/queries/mute.rs). -/
def activeFor (r : MuteRecord) (ch u : Int) : Bool :=
  r.channel_id == ch && r.muted_user_id == u && r.unmuted_at.isNone

/-- Number of active mute records for the pair `(ch, u)`. -/
def countActive (db : MuteDb) (ch u : Int) : Nat :=
  (db.filter fun r => activeFor r ch u).length

/-- Mirrors `mute::create` from src/db/queries/mute.rs: INSERT a fresh (active) row. -/
def mute_create (db : MuteDb) (g ch u muted_by : Int) (admin : Bool) (now : Nat) :
    MuteDb :=
  db ++ [⟨g, ch, u, muted_by, admin, now, none⟩]

/-- Mirrors `mute::get_active_mute` from src/db/queries/mute.rs:
`SELECT ... WHERE channel_id AND muted_user_id AND unmuted_at IS NULL
ORDER BY muted_at DESC LIMIT 1`. -/
def get_active_mute (db : MuteDb) (ch u : Int) : Option MuteRecord :=
  (db.filter fun r => activeFor r ch u).foldl
    (fun acc r =>
      match acc with
      | none => some r
      | some b => if b.muted_at < r.muted_at then some r else some b)
    none

/-- Mirrors `mute::unmute_by_channel_user` from src/db/queries/mute.rs:
`UPDATE mute_history SET unmuted_at = NOW() WHERE channel_id AND
muted_user_id AND unmuted_at IS NULL`; returns `rows_affected() > 0`. -/
def unmute_by_channel_user (db : MuteDb) (ch u : Int) (now : Nat) :
    MuteDb × Bool :=
  (db.map fun r => if activeFor r ch u then { r with unmuted_at := some now } else r,
   db.any fun r => activeFor r ch u)

/-- Row match for an active global mute of `(g, u)`. -/
def globalActiveFor (r : GlobalMute) (g u : Int) : Bool :=
  r.guild_id == g && r.user_id == u && r.unmuted_at.isNone

/-- Mirrors `global_mute::is_globally_muted` from src/db/queries/global_mute.rs. -/
def is_globally_muted (db : GlobalDb) (g u : Int) : Bool :=
  db.any fun r => globalActiveFor r g u

/-- Mirrors `global_mute::record_global_mute` from src/db/queries/global_mute.rs:
upsert on the partial unique index `(guild_id, user_id) WHERE unmuted_at IS
NULL` — refresh `detected_at` of the active row, or insert a new one. -/
def record_global_mute (db : GlobalDb) (g u : Int) (now : Nat) : GlobalDb :=
  if db.any fun r => globalActiveFor r g u then
    db.map fun r => if globalActiveFor r g u then { r with detected_at := now } else r
  else
    db ++ [⟨g, u, now, none⟩]

/-- Mirrors `global_mute::record_global_unmute` from src/db/queries/global_mute.rs:
close every active row for the pair; returns `rows_affected() > 0`. -/
def record_global_unmute (db : GlobalDb) (g u : Int) (now : Nat) :
    GlobalDb × Bool :=
  (db.map fun r => if globalActiveFor r g u then { r with unmuted_at := some now } else r,
   db.any fun r => globalActiveFor r g u)

/-- Mirrors `voice_channel::get` from src/db/queries/voice_channel.rs. -/
def vc_get (db : VcDb) (ch : Int) : Option VoiceChannel :=
  db.find? fun v => v.channel_id == ch

/-! ## Outward platform / notification calls

Every call the core issues to the Discord gateway or the notification
collaborator is recorded as an `Event`; a handler's emitted event list is
its externally visible behavior, in issue order. -/

/-- External calls issued by the handlers (PlatformGateway / notification
collaborator operations). -/
inductive Event where
  /-- Mirrors `mute_service::apply_server_mute`: set or clear the server-mute flag. -/
  | setMute (guild user : Int) (mute : Bool)
  /-- Mirrors `Data::mark_pending_unmute` (in-memory, but its position in the trace
  matters for the delayed-unmute protocol). -/
  | markPending (guild user : Int)
  /-- Rewrite a channel permission overwrite for a user. -/
  | editPermission (channel user : Int)
  /-- Mirrors `channel_id.delete`: delete the Discord channel. -/
  | deleteDiscordChannel (channel : Int)
  /-- Mirrors `guild_id.create_channel`: create the Discord voice channel. -/
  | createDiscordChannel (channel : Int) (name : String)
  /-- Mirrors `EditMember::new().voice_channel(..)`: move a user into a channel. -/
  | moveUser (guild user channel : Int)
  /-- Mirrors `welcome_embed::send`. -/
  | welcome (channel user : Int)
  /-- Set the channel status from the tag list. -/
  | setChannelStatus (channel : Int) (tags : List String)
  /-- Mirrors `spam_prompt::send_prompt`: owner-facing ban/ignore prompt. -/
  | sendPrompt (channel owner target : Int)
  /-- Mirrors `EditMember::new().disable_communication_until(..)`: platform timeout
  for `duration` seconds. -/
  | applyTimeout (guild user : Int) (duration : Nat)
  /-- Mirrors `naming_prompt::send_prompt`. -/
  | namingPrompt (channel user : Int)
deriving DecidableEq, Repr

/-! ## Pending bot-unmute markers (src/bot/data.rs) -/

/-- Mirrors `Data::pending_bot_unmutes`: `(guild_id, user_id) -> Instant`. -/
abbrev PendMap := List ((Int × Int) × Nat)

/-- Key lookup in the marker map. -/
def pend_get (m : PendMap) (g u : Int) : Option Nat :=
  (m.find? fun e => e.1.1 == g && e.1.2 == u).map (·.2)

/-- Key removal from the marker map. -/
def pend_remove (m : PendMap) (g u : Int) : PendMap :=
  m.filter fun e => !(e.1.1 == g && e.1.2 == u)

/-- Mirrors `Data::mark_pending_unmute` from src/bot/data.rs: insert-or-replace the
marker with the current instant. -/
def mark_pending_unmute (m : PendMap) (g u : Int) (now : Nat) : PendMap :=
  ((g, u), now) :: pend_remove m g u

/-- Mirrors `Data::consume_pending_unmute` from src/bot/data.rs: remove the marker
if present and report whether it was set within the last 5 seconds. -/
def consume_pending_unmute (m : PendMap) (g u : Int) (now : Nat) :
    PendMap × Bool :=
  match pend_get m g u with
  | some t => (pend_remove m g u, now - t < 5)
  | none => (m, false)

/-! ## Mute reconciler handlers (src/handlers/voice_state.rs) and the
owner mute service (src/services/moderation/mute_service.rs) -/

/-- Mirrors `mute_service::mute_user`: apply the server mute, then INSERT a record
(no check for an existing active record). -/
def mute_user (db : MuteDb) (g ch muted_u by_u : Int) (admin : Bool) (now : Nat) :
    MuteDb × List Event :=
  (mute_create db g ch muted_u by_u admin now, [Event.setMute g muted_u true])

/-- Mirrors `mute_service::unmute_user`: close this channel's active records; the
server mute is removed only when a record was actually closed (otherwise the
command reports "was not muted in this channel"). -/
def unmute_user (db : MuteDb) (g ch u : Int) (now : Nat) :
    MuteDb × Bool × List Event :=
  let (db1, had_mute) := unmute_by_channel_user db ch u now
  (db1, had_mute, if had_mute then [Event.setMute g u false] else [])

/-- Mirrors `handle_mute_detected` from src/handlers/voice_state.rs: in a managed
channel, record a VC-owner mute unless one is already tracked; outside any
managed channel, create/refresh the global mute record. -/
def handle_mute_detected (vcs : VcDb) (db : MuteDb) (gdb : GlobalDb)
    (g u ch : Int) (now : Nat) : MuteDb × GlobalDb :=
  match vc_get vcs ch with
  | some vc =>
      if (get_active_mute db ch u).isSome then (db, gdb)
      else (mute_create db g ch u vc.owner_id false now, gdb)
  | none => (db, record_global_mute gdb g u now)

/-- Mirrors `handle_unmute_detected` from src/handlers/voice_state.rs: consume the
pending bot-unmute marker and ignore the event if it was fresh; otherwise
close this channel's mute records and any global mute record. -/
def handle_unmute_detected (pend : PendMap) (db : MuteDb) (gdb : GlobalDb)
    (g u ch : Int) (now : Nat) : PendMap × MuteDb × GlobalDb :=
  let consumed := consume_pending_unmute pend g u now
  if consumed.2 then (consumed.1, db, gdb)
  else
    let (db1, _cleared) := unmute_by_channel_user db ch u now
    let (gdb1, _had_global) := record_global_unmute gdb g u now
    (consumed.1, db1, gdb1)

/-! ## The delayed-unmute task (spawned in `handle_channel_leave`,
src/handlers/voice_state.rs lines 282-358)

The spawned task runs after `UNMUTE_DELAY_SECONDS` and re-evaluates state.
The two store lookups are fallible; a `true` failure flag makes the
corresponding lookup return `Err`, in which case the code substitutes its
hard-coded default (`true` for the global check, `false` for the
current-channel check) instead of the real answer. -/

/-- The body of the `tokio::spawn`ed delayed-unmute task. Returns the
resulting stores, marker map, and the trace of calls it issues. -/
def delayed_unmute_task (db : MuteDb) (gdb : GlobalDb) (pend : PendMap)
    (global_lookup_fails current_lookup_fails : Bool)
    (g u : Int) (current_channel : Option Int) (now : Nat) :
    MuteDb × GlobalDb × PendMap × List Event :=
  let globally_muted :=
    if global_lookup_fails then true else is_globally_muted gdb g u
  if globally_muted then (db, gdb, pend, [])
  else
    let muted_in_current :=
      match current_channel with
      | some ch =>
          if current_lookup_fails then false
          else (get_active_mute db ch u).isSome
      | none => false
    if muted_in_current then (db, gdb, pend, [])
    else
      (db, gdb, mark_pending_unmute pend g u now,
       [Event.markPending g u, Event.setMute g u false])

/-! ## Spam detector (src/services/spam/detector.rs,
src/services/spam/timeout_calculator.rs, src/db/queries/spam.rs) -/

/-- Mirrors `TIMEOUT_DURATIONS` from src/constants/timeouts.rs, in seconds. -/
def TIMEOUT_DURATIONS : List Nat :=
  [15 * 60, 60 * 60, 6 * 60 * 60, 24 * 60 * 60,
   3 * 24 * 60 * 60, 7 * 24 * 60 * 60, 14 * 24 * 60 * 60, 14 * 24 * 60 * 60]

/-- Mirrors `timeout_calculator::get_timeout_duration`: clamp the level at the table
bound and index. -/
def get_timeout_duration (level : Nat) : Nat :=
  TIMEOUT_DURATIONS.getD (min level (TIMEOUT_DURATIONS.length - 1)) 0

/-- Mirrors `spam::get_user_stats` / the SELECT inside `spam::get_or_create`
(key lookup in `spam_user_status`). -/
def spam_get (db : SpamDb) (g u : Int) : Option SpamRecord :=
  db.find? fun r => r.guild_id == g && r.user_id == u

/-- The per-row effect of the UPDATE in `spam::increment_infraction`:
`current_timeout_level = LEAST(current_timeout_level + 1, 7)`,
`last_infraction_at = NOW()`, `total_infractions + 1`. -/
def bump_spam (r : SpamRecord) (now : Nat) : SpamRecord :=
  { r with current_timeout_level := min (r.current_timeout_level + 1) 7,
           last_infraction_at := some now,
           total_infractions := r.total_infractions + 1 }

/-- The row-level action of the UPDATE in `spam::increment_infraction`:
bump rows carrying the key, leave the rest alone. -/
def spam_upd_row (g u : Int) (now : Nat) (r : SpamRecord) : SpamRecord :=
  if r.guild_id == g && r.user_id == u then bump_spam r now else r

/-- Mirrors `spam::increment_infraction` from src/db/queries/spam.rs: get-or-create
the row, apply the UPDATE to every row with the key, and return the updated
record. -/
def increment_infraction (db : SpamDb) (g u : Int) (now : Nat) :
    SpamDb × SpamRecord :=
  let fresh : SpamRecord := ⟨g, u, 0, none, 0⟩
  let db0 : SpamDb :=
    match spam_get db g u with
    | some _ => db
    | none => db ++ [fresh]
  (db0.map (spam_upd_row g u now), bump_spam ((spam_get db g u).getD fresh) now)

/-- The per-channel slice of `ActivityTracker.activity`: user id to the
queue of recent event instants, oldest first. -/
abbrev ChannelActivity := List (Int × List Nat)

/-- The per-channel slice of `ActivityTracker.prompted`: user id to the
instant of the last owner prompt. -/
abbrev PromptedMap := List (Int × Nat)

/-- Mirrors `ActivityTracker::get_activity_count`: the number of recorded instants
within the rolling window (`now.duration_since(t) <= window`, `Instant`
durations saturating at zero). -/
def get_activity_count (cm : ChannelActivity) (u : Int) (window now : Nat) : Nat :=
  match cm.find? fun e => e.1 == u with
  | some e => (e.2.filter fun t => now - t ≤ window).length
  | none => 0

/-- Mirrors `ActivityTracker::was_recently_prompted`: prompted within the last
5 minutes. -/
def was_recently_prompted (pr : PromptedMap) (u : Int) (now : Nat) : Bool :=
  match pr.find? fun e => e.1 == u with
  | some e => now - e.2 < 300
  | none => false

/-- Mirrors `ActivityTracker::mark_prompted`: insert-or-replace the prompt instant. -/
def mark_prompted (pr : PromptedMap) (u : Int) (now : Nat) : PromptedMap :=
  (u, now) :: pr.filter fun e => !(e.1 == u)

/-- Mirrors `handle_spam_timeout` from src/services/spam/detector.rs: increment the
persisted infraction level and issue a platform timeout whose duration is
computed from the incremented level. -/
def handle_spam_timeout (db : SpamDb) (g u : Int) (now : Nat) :
    SpamDb × List Event :=
  ((increment_infraction db g u now).1,
   [Event.applyTimeout g u
     (get_timeout_duration (increment_infraction db g u now).2.current_timeout_level)])

/-- The loop body of `check_spam`, iterating over the tracked users of the
channel (`entries` is the still-unprocessed tail; counts are computed
against the full channel map `cm`, as in the source). -/
def check_spam_go (cm : ChannelActivity) (entries : List (Int × List Nat))
    (pr : PromptedMap) (sdb : SpamDb)
    (prompt_threshold timeout_threshold window : Nat)
    (g ch owner : Int) (now : Nat) : SpamDb × PromptedMap × List Event :=
  match entries with
  | [] => (sdb, pr, [])
  | e :: rest =>
      let count := get_activity_count cm e.1 window now
      if timeout_threshold ≤ count then
        let out :=
          check_spam_go cm rest pr (handle_spam_timeout sdb g e.1 now).1
            prompt_threshold timeout_threshold window g ch owner now
        (out.1, out.2.1, (handle_spam_timeout sdb g e.1 now).2 ++ out.2.2)
      else if prompt_threshold ≤ count then
        if was_recently_prompted pr e.1 now then
          check_spam_go cm rest pr sdb prompt_threshold timeout_threshold window g ch owner now
        else
          let out :=
            check_spam_go cm rest (mark_prompted pr e.1 now) sdb
              prompt_threshold timeout_threshold window g ch owner now
          (out.1, out.2.1, Event.sendPrompt ch owner e.1 :: out.2.2)
      else
        check_spam_go cm rest pr sdb prompt_threshold timeout_threshold window g ch owner now

/-- Mirrors `check_spam` from src/services/spam/detector.rs: scan every tracked user
of the channel; at or above the timeout threshold escalate, between the two
thresholds prompt the owner once per 5 minutes. -/
def check_spam (cm : ChannelActivity) (pr : PromptedMap) (sdb : SpamDb)
    (prompt_threshold timeout_threshold window : Nat)
    (g ch owner : Int) (now : Nat) : SpamDb × PromptedMap × List Event :=
  check_spam_go cm cm pr sdb prompt_threshold timeout_threshold window g ch owner now

/-! ## Room lifecycle (src/services/jtc/channel_deleter.rs,
src/services/jtc/channel_creator.rs) -/

/-- The in-memory bot state relevant to the lifecycle paths: the
`active_voice_channels` table, the `Data::channel_owners` cache, the pending
deadlines, and the two `ActivityTracker` maps keyed by channel. -/
structure BotState where
  vcDb : VcDb
  channel_owners : List (Int × Int)
  deadlines : List PendingVcDeadline
  tracker_activity : List (Int × ChannelActivity)
  tracker_prompted : List (Int × PromptedMap)
deriving DecidableEq, Repr

/-- Mirrors `Data::set_channel_owner`. -/
def set_channel_owner (cache : List (Int × Int)) (ch o : Int) : List (Int × Int) :=
  (ch, o) :: cache.filter fun e => !(e.1 == ch)

/-- Mirrors `Data::get_channel_owner`. -/
def get_channel_owner (cache : List (Int × Int)) (ch : Int) : Option Int :=
  (cache.find? fun e => e.1 == ch).map (·.2)

/-- Mirrors `ActivityTracker::cleanup_channel` from src/services/spam/detector.rs:
drop both per-channel tracker maps. (Defined by the source, but never
invoked by any deletion path.) -/
def cleanup_channel (st : BotState) (ch : Int) : BotState :=
  { st with tracker_activity := st.tracker_activity.filter fun e => !(e.1 == ch),
            tracker_prompted := st.tracker_prompted.filter fun e => !(e.1 == ch) }

/-- Mirrors `channel_deleter::delete_channel`: delete the persisted row, remove the
cache entry, then (best-effort) delete the Discord channel. It does not
touch the activity tracker. -/
def delete_channel (st : BotState) (ch : Int) : BotState × List Event :=
  ({ st with vcDb := st.vcDb.filter fun v => !(v.channel_id == ch),
             channel_owners := st.channel_owners.filter fun e => !(e.1 == ch) },
   [Event.deleteDiscordChannel ch])

/-- Mirrors `channel_deleter::transfer_ownership`: persist the new owner and update
the cache; no platform call is made (the permission edit is left as a
comment in the source). -/
def transfer_ownership (st : BotState) (ch new_owner : Int) :
    BotState × List Event :=
  ({ st with vcDb := st.vcDb.map fun v =>
               if v.channel_id == ch then { v with owner_id := new_owner } else v,
             channel_owners := set_channel_owner st.channel_owners ch new_owner },
   [])

/-- A cached guild's voice states (`guild.voice_states.values()` in
iteration order): user id and current channel. -/
abbrev VoiceStates := List (Int × Option Int)

/-- A cached guild's member map: user id to the `user.bot` flag. -/
abbrev Members := List (Int × Bool)

/-- Mirrors `channel_deleter::get_channel_member_count`: count the voice states
pointing at the channel. -/
def get_channel_member_count (vs : VoiceStates) (ch : Int) : Nat :=
  (vs.filter fun p => p.2 == some ch).length

/-- Eligibility test of `get_next_owner`: in the channel, present in the
member cache, and not a bot. -/
def eligible_owner (members : Members) (ch : Int) (p : Int × Option Int) : Bool :=
  p.2 == some ch &&
    (match members.find? fun m => m.1 == p.1 with
     | some m => !m.2
     | none => false)

/-- Mirrors `channel_deleter::get_next_owner`: the first eligible non-bot member in
voice-state iteration order. -/
def get_next_owner (vs : VoiceStates) (members : Members) (ch : Int) :
    Option Int :=
  (vs.find? (eligible_owner members ch)).map (·.1)

/-- Mirrors `channel_deleter::handle_owner_leave`: delete when fewer than 2 members
remain; otherwise transfer to the next owner, or delete when none exists. -/
def handle_owner_leave (st : BotState) (vs : VoiceStates) (members : Members)
    (ch : Int) : BotState × List Event :=
  let member_count := get_channel_member_count vs ch
  if member_count < 2 then delete_channel st ch
  else
    match get_next_owner vs members ch with
    | some new_owner => transfer_ownership st ch new_owner
    | none => delete_channel st ch

/-! ## JTC creation flow (src/services/jtc/channel_creator.rs) -/

/-- Mirrors `VC_NAMING_DEADLINE_SECONDS` from src/constants/timeouts.rs. -/
def VC_NAMING_DEADLINE_SECONDS : Nat := 60

/-- The creation flow's failure mode: `Error::JtcNotConfigured`. -/
inductive JtcError where
  | notConfigured
deriving DecidableEq, Repr

/-- Mirrors `user_vc_preference::create_deadline`: upsert on `channel_id`
(ON CONFLICT updates `deadline_at`). -/
def create_deadline (dls : List PendingVcDeadline) (ch g o : Int) (at_ : Nat) :
    List PendingVcDeadline :=
  if dls.any fun d => d.channel_id == ch then
    dls.map fun d => if d.channel_id == ch then { d with deadline_at := at_ } else d
  else
    dls ++ [⟨ch, g, o, at_⟩]

/-- Deadline lookup by channel (`has_deadline` shape, returning the row). -/
def deadline_get (dls : List PendingVcDeadline) (ch : Int) :
    Option PendingVcDeadline :=
  dls.find? fun d => d.channel_id == ch

/-- Mirrors `channel_creator::create_channel`: fail with `JtcNotConfigured` when the
guild config or the category for this kind is missing; otherwise create the
Discord channel (named after the topic, or the kind's placeholder), persist
the row with the topic and tags verbatim, update the owner cache, move the
user in, optionally set the tag status, and send the welcome embed.
`new_ch` stands for the channel id the platform allocates. -/
def create_channel (st : BotState) (config : Option GuildConfig)
    (g u new_ch : Int) (is_casual : Bool)
    (topic : Option String) (tags : List String) :
    Except JtcError (BotState × Int × List Event) :=
  match config with
  | none => .error .notConfigured
  | some cfg =>
      match cfg.category_id is_casual with
      | none => .error .notConfigured
      | some _category =>
          let channel_name :=
            match topic with
            | some t => t
            | none => if is_casual then "Casual VC" else "Debate VC"
          let vc : VoiceChannel := ⟨new_ch, g, u, topic, tags⟩
          let evs :=
            [Event.createDiscordChannel new_ch channel_name,
             Event.moveUser g u new_ch] ++
            (if tags.isEmpty then [] else [Event.setChannelStatus new_ch tags]) ++
            [Event.welcome new_ch u]
          .ok ({ st with vcDb := st.vcDb ++ [vc],
                         channel_owners := set_channel_owner st.channel_owners new_ch u },
               new_ch, evs)

/-- Mirrors `channel_creator::start_jtc_flow`: with a saved preference, create the
room from it directly; without one, create with the defaults, record a
naming deadline at `now + VC_NAMING_DEADLINE_SECONDS`, and send the naming
prompt. -/
def start_jtc_flow (st : BotState) (prefs : Option UserVcPreference)
    (config : Option GuildConfig) (g u new_ch : Int) (is_casual : Bool)
    (now : Nat) : Except JtcError (BotState × List Event) :=
  match prefs with
  | some p =>
      match create_channel st config g u new_ch is_casual
              p.preferred_name p.preferred_tags with
      | .error e => .error e
      | .ok (st1, _ch, evs) => .ok (st1, evs)
  | none =>
      match create_channel st config g u new_ch is_casual none [] with
      | .error e => .error e
      | .ok (st1, ch, evs) =>
          .ok ({ st1 with deadlines :=
                   create_deadline st1.deadlines ch g u (now + VC_NAMING_DEADLINE_SECONDS) },
               evs ++ [Event.namingPrompt ch u])

/-! ## Helper lemmas -/

/-- The at-most-one-active-record invariant over the `mute_history` table. -/
def atMostOneActive (db : MuteDb) : Prop :=
  ∀ ch u : Int, countActive db ch u ≤ 1

lemma foldl_latest_isSome (l : List MuteRecord) (acc : Option MuteRecord)
    (h : acc.isSome) :
    (l.foldl
      (fun acc r =>
        match acc with
        | none => some r
        | some b => if b.muted_at < r.muted_at then some r else some b)
      acc).isSome := by
  induction l generalizing acc with
  | nil => exact h
  | cons r t ih =>
      cases acc with
      | none => simp at h
      | some b =>
          simp only [List.foldl_cons]
          apply ih
          by_cases hlt : b.muted_at < r.muted_at <;> simp [hlt]

lemma get_active_mute_none_iff (db : MuteDb) (ch u : Int) :
    get_active_mute db ch u = none ↔ countActive db ch u = 0 := by
  unfold get_active_mute countActive
  rw [List.length_eq_zero]
  cases hf : db.filter (fun r => activeFor r ch u) with
  | nil => simp
  | cons r t =>
      simp only [List.foldl_cons]
      constructor
      · intro h
        exfalso
        have := foldl_latest_isSome t (some r) (by simp)
        rw [h] at this
        simp at this
      · intro h
        simp at h

lemma countActive_append (db1 db2 : MuteDb) (ch u : Int) :
    countActive (db1 ++ db2) ch u = countActive db1 ch u + countActive db2 ch u := by
  simp [countActive, List.filter_append]

lemma activeFor_close (r : MuteRecord) (ch u : Int) (now : Nat) :
    activeFor (if activeFor r ch u then { r with unmuted_at := some now } else r) ch u
      = false := by
  by_cases h : activeFor r ch u = true
  · simp only [h, if_pos]
    simp [activeFor] at h ⊢
  · simp only [Bool.not_eq_true] at h
    simp [h]

lemma map_eq_self_of_eq {α : Type} (l : List α) (f : α → α)
    (h : ∀ x ∈ l, f x = x) : l.map f = l := by
  induction l with
  | nil => rfl
  | cons a t ih =>
      simp only [List.map_cons, List.cons.injEq]
      exact ⟨h a (List.mem_cons_self a t), ih fun x hx => h x (List.mem_cons_of_mem a hx)⟩

lemma unmute_by_channel_user_clears (db : MuteDb) (ch u : Int) (now : Nat) :
    ∀ r ∈ (unmute_by_channel_user db ch u now).1, activeFor r ch u = false := by
  intro r hr
  simp only [unmute_by_channel_user, List.mem_map] at hr
  obtain ⟨r0, _, rfl⟩ := hr
  exact activeFor_close r0 ch u now

lemma pend_get_insert (m : PendMap) (g u : Int) (now : Nat) :
    pend_get (mark_pending_unmute m g u now) g u = some now := by
  simp [pend_get, mark_pending_unmute]

lemma unmute_idempotent (db : MuteDb) (ch u : Int) (t1 t2 : Nat) :
    unmute_by_channel_user (unmute_by_channel_user db ch u t1).1 ch u t2 =
      ((unmute_by_channel_user db ch u t1).1, false) := by
  have hclear := unmute_by_channel_user_clears db ch u t1
  set db1 := (unmute_by_channel_user db ch u t1).1 with hdb1
  unfold unmute_by_channel_user
  simp only [Prod.mk.injEq]
  constructor
  · apply map_eq_self_of_eq
    intro r hr
    simp [hclear r hr]
  · simp only [List.any_eq_false]
    intro r hr
    simp [hclear r hr]

/-! ## Claim C1 -/

/-- C1 counterexample: starting from an empty `mute_history`, two
invocations of the owner /mute path (`mute_service::mute_user`, which
inserts unconditionally) for the same (room, user) pair leave two records
with `unmuted_at` unset, so "at most one active MuteRecord per pair across
every path that creates records" is false at this input. -/
theorem mute_user_duplicate_active :
    ¬ atMostOneActive (mute_user (mute_user [] 1 10 2 3 false 0).1 1 10 2 3 false 1).1 := by
  intro h
  have h2 := h 10 2
  simp [mute_user, mute_create, countActive, activeFor] at h2

/-- C1 (amended): the mute-detection handler preserves the at-most-one-
active invariant (it checks `get_active_mute` before creating), and closing
is idempotent: `unmute_by_channel_user` closes every active record for the
pair at once, so a second `unmute_user` for the same pair changes no record,
issues no platform call, and returns false (reported "was not muted").
The owner /mute command's `mute_user`, however, inserts unconditionally and
can create a second active record for the same pair. -/
theorem mute_invariant_amended (vcs : VcDb) (db : MuteDb) (gdb : GlobalDb)
    (g u ch : Int) (now t1 t2 : Nat) (h : atMostOneActive db) :
    atMostOneActive (handle_mute_detected vcs db gdb g u ch now).1 ∧
    unmute_user (unmute_user db g ch u t1).1 g ch u t2 =
      ((unmute_user db g ch u t1).1, false, []) := by
  constructor
  · unfold handle_mute_detected
    cases hvc : vc_get vcs ch with
    | none => exact h
    | some vc =>
        by_cases hact : (get_active_mute db ch u).isSome
        · simp only [hact, if_pos]
          exact h
        · simp only [hact, if_neg, Bool.false_eq_true, not_false_eq_true]
          intro ch' u'
          have hzero : countActive db ch u = 0 := by
            rw [← get_active_mute_none_iff]
            exact Option.not_isSome_iff_eq_none.mp hact
          unfold mute_create
          rw [countActive_append]
          by_cases hc : ch' = ch ∧ u' = u
          · obtain ⟨rfl, rfl⟩ := hc
            rw [hzero]
            simp [countActive, activeFor]
          · have hne : activeFor ⟨g, ch, u, vc.owner_id, false, now, none⟩ ch' u' = false := by
              simp only [activeFor, Option.isNone_none, Bool.and_true]
              rw [Bool.and_eq_false_iff]
              rcases not_and_or.mp hc with hx | hx
              · exact Or.inl (by simp [beq_iff_eq]; exact fun hh => hx hh.symm)
              · exact Or.inr (by simp [beq_iff_eq]; exact fun hh => hx hh.symm)
            have : countActive [⟨g, ch, u, vc.owner_id, false, now, none⟩] ch' u' = 0 := by
              simp [countActive, hne]
            rw [this]
            exact h ch' u'
  · have hid := unmute_idempotent db ch u t1 t2
    simp [unmute_user, hid]

/-- Witness for C1's amended theorem: the empty table satisfies the
invariant, and the conclusion holds there. -/
theorem mute_invariant_amended_witness :
    atMostOneActive ([] : MuteDb) ∧
    (atMostOneActive (handle_mute_detected [] [] [] 1 2 10 0).1 ∧
     unmute_user (unmute_user [] 1 10 2 0).1 1 10 2 1 =
       ((unmute_user [] 1 10 2 0).1, false, [])) :=
  ⟨fun ch u => by simp [countActive],
   mute_invariant_amended [] [] [] 1 2 10 0 0 1 (fun ch u => by simp [countActive])⟩

/-! ## Claim C4 -/

lemma globalActiveFor_close (r : GlobalMute) (g u : Int) (now : Nat) :
    globalActiveFor
        (if globalActiveFor r g u then { r with unmuted_at := some now } else r) g u
      = false := by
  by_cases h : globalActiveFor r g u = true
  · simp only [h, if_pos]
    simp [globalActiveFor] at h ⊢
  · simp only [Bool.not_eq_true] at h
    simp [h]

lemma record_global_unmute_clears (gdb : GlobalDb) (g u : Int) (now : Nat) :
    is_globally_muted (record_global_unmute gdb g u now).1 g u = false := by
  simp only [is_globally_muted, record_global_unmute, List.any_eq_false]
  intro r hr
  simp only [List.mem_map] at hr
  obtain ⟨r0, _, rfl⟩ := hr
  simp [globalActiveFor_close r0 g u now]

/-- C4: on a muted-to-unmuted transition handled in place, a pending
bot-unmute marker younger than 5 seconds is consumed read-once and nothing
else changes; otherwise the handler closes every active MuteRecord for the
current channel (records that do not match the pair — in particular active
records of other rooms — survive unchanged) and also closes any active
GlobalMuteRecord for the (guild, user) pair (non-matching global rows
survive unchanged). -/
theorem unmute_detected_classification (pend : PendMap) (db : MuteDb)
    (gdb : GlobalDb) (g u ch : Int) (now : Nat) :
    (∀ t, pend_get pend g u = some t → now - t < 5 →
       handle_unmute_detected pend db gdb g u ch now =
         (pend_remove pend g u, db, gdb)) ∧
    ((consume_pending_unmute pend g u now).2 = false →
       countActive (handle_unmute_detected pend db gdb g u ch now).2.1 ch u = 0 ∧
       (∀ r ∈ db, activeFor r ch u = false →
          r ∈ (handle_unmute_detected pend db gdb g u ch now).2.1) ∧
       is_globally_muted (handle_unmute_detected pend db gdb g u ch now).2.2
           g u = false ∧
       (∀ r ∈ gdb, globalActiveFor r g u = false →
          r ∈ (handle_unmute_detected pend db gdb g u ch now).2.2)) := by
  constructor
  · intro t ht h5
    simp [handle_unmute_detected, consume_pending_unmute, ht, h5]
  · intro hstale
    have hout : handle_unmute_detected pend db gdb g u ch now =
        ((consume_pending_unmute pend g u now).1,
         (unmute_by_channel_user db ch u now).1,
         (record_global_unmute gdb g u now).1) := by
      simp [handle_unmute_detected, hstale]
    rw [hout]
    refine ⟨?_, ?_, ?_, ?_⟩
    · simp only [countActive, List.length_eq_zero, List.filter_eq_nil_iff]
      intro r hr
      simp [unmute_by_channel_user_clears db ch u now r hr]
    · intro r hr hno
      simp only [unmute_by_channel_user, List.mem_map]
      exact ⟨r, hr, by simp [hno]⟩
    · exact record_global_unmute_clears gdb g u now
    · intro r hr hno
      simp only [record_global_unmute, List.mem_map]
      exact ⟨r, hr, by simp [hno]⟩

/-- Witness for C4: a stale marker (set at instant 0, observed at 10) with
one active record in the current channel and one active global row. -/
theorem unmute_detected_classification_witness :
    (∀ t, pend_get [((1, 2), 0)] 1 2 = some t → 10 - t < 5 →
       handle_unmute_detected [((1, 2), 0)] [⟨1, 10, 2, 3, false, 0, none⟩]
           [⟨1, 2, 0, none⟩] 1 2 10 10 =
         (pend_remove [((1, 2), 0)] 1 2, [⟨1, 10, 2, 3, false, 0, none⟩],
          [⟨1, 2, 0, none⟩])) ∧
    ((consume_pending_unmute [((1, 2), 0)] 1 2 10).2 = false →
       countActive (handle_unmute_detected [((1, 2), 0)]
           [⟨1, 10, 2, 3, false, 0, none⟩] [⟨1, 2, 0, none⟩] 1 2 10 10).2.1
           10 2 = 0 ∧
       (∀ r ∈ ([⟨1, 10, 2, 3, false, 0, none⟩] : MuteDb),
          activeFor r 10 2 = false →
          r ∈ (handle_unmute_detected [((1, 2), 0)]
              [⟨1, 10, 2, 3, false, 0, none⟩] [⟨1, 2, 0, none⟩] 1 2 10 10).2.1) ∧
       is_globally_muted (handle_unmute_detected [((1, 2), 0)]
           [⟨1, 10, 2, 3, false, 0, none⟩] [⟨1, 2, 0, none⟩] 1 2 10 10).2.2
           1 2 = false ∧
       (∀ r ∈ ([⟨1, 2, 0, none⟩] : GlobalDb), globalActiveFor r 1 2 = false →
          r ∈ (handle_unmute_detected [((1, 2), 0)]
              [⟨1, 10, 2, 3, false, 0, none⟩] [⟨1, 2, 0, none⟩] 1 2 10 10).2.2)) :=
  unmute_detected_classification [((1, 2), 0)] [⟨1, 10, 2, 3, false, 0, none⟩]
    [⟨1, 2, 0, none⟩] 1 2 10 10

/-! ## Claim C2 -/

/-- C2: with both store lookups succeeding, the delayed-unmute task issues
the platform unmute call exactly when the user has no active
GlobalMuteRecord and is not currently in a voice channel where they hold an
active MuteRecord; in particular an active global mute, or an active mute
for the channel the user currently occupies, suppresses the unmute. -/
theorem delayed_unmute_respects_state (db : MuteDb) (gdb : GlobalDb)
    (pend : PendMap) (g u : Int) (current_channel : Option Int) (now : Nat) :
    (Event.setMute g u false ∈
        (delayed_unmute_task db gdb pend false false g u current_channel now).2.2.2) ↔
      (is_globally_muted gdb g u = false ∧
       ∀ ch, current_channel = some ch → get_active_mute db ch u = none) := by
  unfold delayed_unmute_task
  by_cases hG : is_globally_muted gdb g u = true
  · simp [hG]
  · rw [Bool.not_eq_true] at hG
    cases current_channel with
    | none => simp [hG]
    | some ch =>
        by_cases hM : (get_active_mute db ch u).isSome
        · rw [Option.isSome_iff_exists] at hM
          obtain ⟨r, hr⟩ := hM
          simp [hG, hr]
        · rw [Option.not_isSome_iff_eq_none] at hM
          simp [hG, hM]

/-- Witness for C2 at a concrete input (empty stores, user in no channel). -/
theorem delayed_unmute_respects_state_witness :
    (Event.setMute 1 2 false ∈
        (delayed_unmute_task [] [] [] false false 1 2 none 0).2.2.2) ↔
      (is_globally_muted [] 1 2 = false ∧
       ∀ ch, (none : Option Int) = some ch → get_active_mute [] ch 2 = none) :=
  delayed_unmute_respects_state [] [] [] 1 2 none 0

/-! ## Claim C3 -/

/-- C3: whenever the delayed-unmute task reaches its unmute step, its trace
is exactly the pending-marker write followed by the platform unmute (the
marker is set before the call, and `pend_get` finds it afterwards), and in
every case the task leaves the `mute_history` table — in particular every
record's `unmuted_at` — unchanged. -/
theorem delayed_unmute_sets_marker_keeps_record (db : MuteDb) (gdb : GlobalDb)
    (pend : PendMap) (gf cf : Bool) (g u : Int) (current_channel : Option Int)
    (now : Nat) :
    (delayed_unmute_task db gdb pend gf cf g u current_channel now).1 = db ∧
    (Event.setMute g u false ∈
        (delayed_unmute_task db gdb pend gf cf g u current_channel now).2.2.2 →
      (delayed_unmute_task db gdb pend gf cf g u current_channel now).2.2.2 =
          [Event.markPending g u, Event.setMute g u false] ∧
        pend_get (delayed_unmute_task db gdb pend gf cf g u current_channel now).2.2.1
            g u = some now) := by
  unfold delayed_unmute_task
  by_cases hG : (if gf then true else is_globally_muted gdb g u) = true
  · simp [hG]
  · rw [Bool.not_eq_true] at hG
    by_cases hM : (match current_channel with
        | some ch => !cf && (get_active_mute db ch u).isSome
        | none => false) = true
    · simp only [hG, Bool.false_eq_true, if_false, Bool.if_false_left] at *
      simp [hM]
    · simp only [hG, Bool.false_eq_true, if_false, Bool.if_false_left] at *
      rw [Bool.not_eq_true] at hM
      simp [hM, pend_get_insert]

/-- Witness for C3 at a concrete input that reaches the unmute step. -/
theorem delayed_unmute_sets_marker_keeps_record_witness :
    (delayed_unmute_task [] [] [] false false 1 2 none 7).1 = [] ∧
    (Event.setMute 1 2 false ∈
        (delayed_unmute_task [] [] [] false false 1 2 none 7).2.2.2 →
      (delayed_unmute_task [] [] [] false false 1 2 none 7).2.2.2 =
          [Event.markPending 1 2, Event.setMute 1 2 false] ∧
        pend_get (delayed_unmute_task [] [] [] false false 1 2 none 7).2.2.1
            1 2 = some 7) :=
  delayed_unmute_sets_marker_keeps_record [] [] [] false false 1 2 none 7

/-! ## Claim C10 -/

/-- C10: the delayed-unmute task's error defaults are asymmetric: a failed
global-mute lookup makes it behave as if globally muted and abort with no
calls at all, while a failed current-channel lookup makes it treat the user
as not muted there and proceed to remove the platform mute (whatever active
records the `mute_history` table actually holds for that channel). -/
theorem delayed_unmute_error_defaults (db : MuteDb) (gdb : GlobalDb)
    (pend : PendMap) (cf : Bool) (g u ch : Int) (current_channel : Option Int)
    (now : Nat) (hg : is_globally_muted gdb g u = false) :
    delayed_unmute_task db gdb pend true cf g u current_channel now =
      (db, gdb, pend, []) ∧
    delayed_unmute_task db gdb pend false true g u (some ch) now =
      (db, gdb, mark_pending_unmute pend g u now,
       [Event.markPending g u, Event.setMute g u false]) := by
  constructor
  · simp [delayed_unmute_task]
  · simp [delayed_unmute_task, hg]

/-- Witness for C10: a store holding an active mute record for the very
channel the user occupies, with no global mute. -/
theorem delayed_unmute_error_defaults_witness :
    is_globally_muted [] 1 2 = false ∧
    (delayed_unmute_task [⟨1, 10, 2, 3, false, 0, none⟩] [] [] true false 1 2
        (some 10) 9 = ([⟨1, 10, 2, 3, false, 0, none⟩], [], [], []) ∧
     delayed_unmute_task [⟨1, 10, 2, 3, false, 0, none⟩] [] [] false true 1 2
        (some 10) 9 =
       ([⟨1, 10, 2, 3, false, 0, none⟩], [], mark_pending_unmute [] 1 2 9,
        [Event.markPending 1 2, Event.setMute 1 2 false])) :=
  ⟨rfl, delayed_unmute_error_defaults [⟨1, 10, 2, 3, false, 0, none⟩] [] [] false
    1 2 10 (some 10) 9 rfl⟩

/-! ## Spam-detector lemmas (towards C5 and C6) -/

/-- The record the escalation starts from: the stored row, or the fresh
all-zero row `get_or_create` would insert. -/
def prev_spam_record (sdb : SpamDb) (g u : Int) : SpamRecord :=
  (spam_get sdb g u).getD ⟨g, u, 0, none, 0⟩

/-- Does this event time the user out? -/
def isTimeoutFor (u : Int) : Event → Bool
  | Event.applyTimeout _ u' _ => u' == u
  | _ => false

/-- Does this event prompt the owner about the user? -/
def isPromptFor (u : Int) : Event → Bool
  | Event.sendPrompt _ _ t => t == u
  | _ => false

lemma spam_upd_row_key (g u g' u' : Int) (now : Nat) (r : SpamRecord) :
    ((spam_upd_row g' u' now r).guild_id == g &&
      (spam_upd_row g' u' now r).user_id == u)
      = (r.guild_id == g && r.user_id == u) := by
  unfold spam_upd_row
  by_cases h : (r.guild_id == g' && r.user_id == u') = true <;> simp [h, bump_spam]

lemma key_pair_false (g u g' u' : Int) (hne : ¬(g' = g ∧ u' = u)) :
    (g' == g && u' == u) = false := by
  by_cases h1 : g' = g
  · by_cases h2 : u' = u
    · exact absurd ⟨h1, h2⟩ hne
    · simp [h2]
  · simp [h1]

lemma spam_get_map_upd (db : SpamDb) (g u g' u' : Int) (now : Nat) :
    spam_get (db.map (spam_upd_row g' u' now)) g u
      = (spam_get db g u).map (spam_upd_row g' u' now) := by
  unfold spam_get
  rw [List.find?_map]
  have hp : ((fun r : SpamRecord => r.guild_id == g && r.user_id == u) ∘
      spam_upd_row g' u' now)
      = (fun r : SpamRecord => r.guild_id == g && r.user_id == u) := by
    funext r
    exact spam_upd_row_key g u g' u' now r
  rw [hp]

lemma spam_get_key (db : SpamDb) (g u : Int) (r : SpamRecord)
    (h : spam_get db g u = some r) : r.guild_id = g ∧ r.user_id = u := by
  unfold spam_get at h
  have := List.find?_some h
  simp only [Bool.and_eq_true, beq_iff_eq] at this
  exact this

lemma spam_upd_row_self (g u : Int) (now : Nat) (r : SpamRecord)
    (hg : r.guild_id = g) (hu : r.user_id = u) :
    spam_upd_row g u now r = bump_spam r now := by
  simp [spam_upd_row, hg, hu]

lemma spam_upd_row_other (g u g' u' : Int) (now : Nat) (r : SpamRecord)
    (hg : r.guild_id = g) (hu : r.user_id = u) (hne : ¬(g' = g ∧ u' = u)) :
    spam_upd_row g' u' now r = r := by
  have hcond : (r.guild_id == g' && r.user_id == u') = false := by
    rw [hg, hu]
    exact key_pair_false g' u' g u fun hx => hne ⟨hx.1.symm, hx.2.symm⟩
  simp [spam_upd_row, hcond]

lemma spam_get_increment_self (db : SpamDb) (g u : Int) (now : Nat) :
    spam_get (increment_infraction db g u now).1 g u =
      some (bump_spam (prev_spam_record db g u) now) := by
  unfold increment_infraction prev_spam_record
  cases h : spam_get db g u with
  | some r =>
      obtain ⟨hg, hu⟩ := spam_get_key db g u r h
      simp only [h]
      rw [spam_get_map_upd, h]
      simp [spam_upd_row_self g u now r hg hu]
  | none =>
      simp only [h]
      rw [spam_get_map_upd]
      have happ : spam_get (db ++ [(⟨g, u, 0, none, 0⟩ : SpamRecord)]) g u =
          some ⟨g, u, 0, none, 0⟩ := by
        unfold spam_get at h ⊢
        rw [List.find?_append, h]
        simp
      rw [happ]
      simp only [Option.map_some', Option.getD_none]
      rw [spam_upd_row_self g u now ⟨g, u, 0, none, 0⟩ rfl rfl]

lemma spam_get_increment_other (db : SpamDb) (g u g' u' : Int) (now : Nat)
    (hne : ¬(g' = g ∧ u' = u)) :
    spam_get (increment_infraction db g' u' now).1 g u = spam_get db g u := by
  unfold increment_infraction
  have hmap : ∀ db0 : SpamDb, spam_get db0 g u = spam_get db g u →
      spam_get (db0.map (spam_upd_row g' u' now)) g u = spam_get db g u := by
    intro db0 h0
    rw [spam_get_map_upd, h0]
    cases h2 : spam_get db g u with
    | none => rfl
    | some r2 =>
        obtain ⟨hg, hu⟩ := spam_get_key db g u r2 h2
        simp [spam_upd_row_other g u g' u' now r2 hg hu hne]
  cases h : spam_get db g' u' with
  | some r => exact hmap db rfl
  | none =>
      apply hmap
      unfold spam_get
      rw [List.find?_append]
      have hsing : List.find? (fun r => r.guild_id == g && r.user_id == u)
          [(⟨g', u', 0, none, 0⟩ : SpamRecord)] = none := by
        have hcond := key_pair_false g u g' u' hne
        simp only [List.find?_singleton]
        simp [hcond]
      rw [hsing, Option.or_none]

lemma handle_spam_timeout_fst (sdb : SpamDb) (g u : Int) (now : Nat) :
    (handle_spam_timeout sdb g u now).1 = (increment_infraction sdb g u now).1 := rfl

lemma handle_spam_timeout_snd (sdb : SpamDb) (g u : Int) (now : Nat) :
    (handle_spam_timeout sdb g u now).2 =
      [Event.applyTimeout g u (get_timeout_duration
        (bump_spam (prev_spam_record sdb g u) now).current_timeout_level)] := rfl

lemma check_spam_go_cons_timeout (cm : ChannelActivity) (e : Int × List Nat)
    (rest : List (Int × List Nat)) (pr : PromptedMap) (sdb : SpamDb)
    (pT tT w : Nat) (g ch owner : Int) (now : Nat)
    (h1 : tT ≤ get_activity_count cm e.1 w now) :
    check_spam_go cm (e :: rest) pr sdb pT tT w g ch owner now =
      ((check_spam_go cm rest pr (handle_spam_timeout sdb g e.1 now).1
          pT tT w g ch owner now).1,
       (check_spam_go cm rest pr (handle_spam_timeout sdb g e.1 now).1
          pT tT w g ch owner now).2.1,
       (handle_spam_timeout sdb g e.1 now).2 ++
         (check_spam_go cm rest pr (handle_spam_timeout sdb g e.1 now).1
            pT tT w g ch owner now).2.2) := by
  simp [check_spam_go, h1]

lemma check_spam_go_cons_prompt_new (cm : ChannelActivity) (e : Int × List Nat)
    (rest : List (Int × List Nat)) (pr : PromptedMap) (sdb : SpamDb)
    (pT tT w : Nat) (g ch owner : Int) (now : Nat)
    (h1 : ¬ tT ≤ get_activity_count cm e.1 w now)
    (h2 : pT ≤ get_activity_count cm e.1 w now)
    (h3 : was_recently_prompted pr e.1 now = false) :
    check_spam_go cm (e :: rest) pr sdb pT tT w g ch owner now =
      ((check_spam_go cm rest (mark_prompted pr e.1 now) sdb
          pT tT w g ch owner now).1,
       (check_spam_go cm rest (mark_prompted pr e.1 now) sdb
          pT tT w g ch owner now).2.1,
       Event.sendPrompt ch owner e.1 ::
         (check_spam_go cm rest (mark_prompted pr e.1 now) sdb
            pT tT w g ch owner now).2.2) := by
  simp [check_spam_go, h1, h2, h3]

lemma check_spam_go_cons_prompt_old (cm : ChannelActivity) (e : Int × List Nat)
    (rest : List (Int × List Nat)) (pr : PromptedMap) (sdb : SpamDb)
    (pT tT w : Nat) (g ch owner : Int) (now : Nat)
    (h1 : ¬ tT ≤ get_activity_count cm e.1 w now)
    (h2 : pT ≤ get_activity_count cm e.1 w now)
    (h3 : was_recently_prompted pr e.1 now = true) :
    check_spam_go cm (e :: rest) pr sdb pT tT w g ch owner now =
      check_spam_go cm rest pr sdb pT tT w g ch owner now := by
  simp [check_spam_go, h1, h2, h3]

lemma check_spam_go_cons_skip (cm : ChannelActivity) (e : Int × List Nat)
    (rest : List (Int × List Nat)) (pr : PromptedMap) (sdb : SpamDb)
    (pT tT w : Nat) (g ch owner : Int) (now : Nat)
    (h1 : ¬ tT ≤ get_activity_count cm e.1 w now)
    (h2 : ¬ pT ≤ get_activity_count cm e.1 w now) :
    check_spam_go cm (e :: rest) pr sdb pT tT w g ch owner now =
      check_spam_go cm rest pr sdb pT tT w g ch owner now := by
  simp [check_spam_go, h1, h2]

lemma check_spam_go_absent (cm : ChannelActivity) (entries : List (Int × List Nat))
    (pr : PromptedMap) (sdb : SpamDb) (pT tT w : Nat) (g ch owner : Int)
    (now : Nat) (u : Int) (habs : u ∉ entries.map Prod.fst) :
    spam_get (check_spam_go cm entries pr sdb pT tT w g ch owner now).1 g u
      = spam_get sdb g u ∧
    (check_spam_go cm entries pr sdb pT tT w g ch owner now).2.2.filter
        (isTimeoutFor u) = [] ∧
    (check_spam_go cm entries pr sdb pT tT w g ch owner now).2.2.filter
        (isPromptFor u) = [] := by
  revert habs
  induction entries generalizing pr sdb with
  | nil =>
      intro habs
      simp [check_spam_go]
  | cons e rest ih =>
      intro habs
      have hne : e.1 ≠ u := by
        intro hx
        exact habs (by simp [hx])
      have habs' : u ∉ rest.map Prod.fst := by
        intro hx
        exact habs (by simp [hx])
      have hinc : spam_get (handle_spam_timeout sdb g e.1 now).1 g u
          = spam_get sdb g u := by
        rw [handle_spam_timeout_fst]
        exact spam_get_increment_other sdb g u g e.1 now fun hx => hne hx.2
      by_cases h1 : tT ≤ get_activity_count cm e.1 w now
      · obtain ⟨ihA, ihB, ihC⟩ := ih pr (handle_spam_timeout sdb g e.1 now).1 habs'
        rw [check_spam_go_cons_timeout cm e rest pr sdb pT tT w g ch owner now h1]
        refine ⟨by rw [ihA, hinc], ?_, ?_⟩
        · rw [List.filter_append, ihB, handle_spam_timeout_snd]
          simp [isTimeoutFor, hne]
        · rw [List.filter_append, ihC, handle_spam_timeout_snd]
          simp [isPromptFor]
      · by_cases h2 : pT ≤ get_activity_count cm e.1 w now
        · by_cases h3 : was_recently_prompted pr e.1 now = true
          · obtain ⟨ihA, ihB, ihC⟩ := ih pr sdb habs'
            rw [check_spam_go_cons_prompt_old cm e rest pr sdb pT tT w g ch
              owner now h1 h2 h3]
            exact ⟨ihA, ihB, ihC⟩
          · obtain ⟨ihA, ihB, ihC⟩ := ih (mark_prompted pr e.1 now) sdb habs'
            simp only [Bool.not_eq_true] at h3
            rw [check_spam_go_cons_prompt_new cm e rest pr sdb pT tT w g ch
              owner now h1 h2 h3]
            refine ⟨ihA, ?_, ?_⟩
            · rw [List.filter_cons]
              simp [isTimeoutFor, ihB]
            · rw [List.filter_cons]
              simp [isPromptFor, hne, ihC]
        · obtain ⟨ihA, ihB, ihC⟩ := ih pr sdb habs'
          rw [check_spam_go_cons_skip cm e rest pr sdb pT tT w g ch owner now h1 h2]
          exact ⟨ihA, ihB, ihC⟩

lemma check_spam_go_present (cm : ChannelActivity) (entries : List (Int × List Nat))
    (pr : PromptedMap) (sdb : SpamDb) (pT tT w : Nat) (g ch owner : Int)
    (now : Nat) (u : Int)
    (hnd : (entries.map Prod.fst).Nodup) (hmem : u ∈ entries.map Prod.fst)
    (hcnt : tT ≤ get_activity_count cm u w now) :
    (check_spam_go cm entries pr sdb pT tT w g ch owner now).2.2.filter
        (isTimeoutFor u) =
      [Event.applyTimeout g u (get_timeout_duration
        (bump_spam (prev_spam_record sdb g u) now).current_timeout_level)] ∧
    (check_spam_go cm entries pr sdb pT tT w g ch owner now).2.2.filter
        (isPromptFor u) = [] ∧
    spam_get (check_spam_go cm entries pr sdb pT tT w g ch owner now).1 g u
      = some (bump_spam (prev_spam_record sdb g u) now) := by
  revert hnd hmem
  induction entries generalizing pr sdb with
  | nil =>
      intro _ hmem
      simp at hmem
  | cons e rest ih =>
      intro hnd hmem
      simp only [List.map_cons, List.nodup_cons] at hnd
      rcases List.mem_cons.mp hmem with heq | hmem'
      · -- this entry names the user itself
        have hcnt' : tT ≤ get_activity_count cm e.1 w now := heq ▸ hcnt
        obtain ⟨abA, abB, abC⟩ :=
          check_spam_go_absent cm rest pr (handle_spam_timeout sdb g e.1 now).1
            pT tT w g ch owner now u (heq ▸ hnd.1)
        rw [check_spam_go_cons_timeout cm e rest pr sdb pT tT w g ch owner now hcnt']
        refine ⟨?_, ?_, ?_⟩
        · rw [List.filter_append, abB, handle_spam_timeout_snd]
          simp [isTimeoutFor, heq]
        · rw [List.filter_append, abC, handle_spam_timeout_snd]
          simp [isPromptFor]
        · rw [heq] at abA ⊢
          dsimp only
          rw [abA, handle_spam_timeout_fst]
          exact spam_get_increment_self sdb g e.1 now
      · -- another user's entry first
        have hne : e.1 ≠ u := fun hx => hnd.1 (hx ▸ hmem')
        by_cases h1 : tT ≤ get_activity_count cm e.1 w now
        · have hkeep : spam_get (handle_spam_timeout sdb g e.1 now).1 g u
              = spam_get sdb g u := by
            rw [handle_spam_timeout_fst]
            exact spam_get_increment_other sdb g u g e.1 now fun hx => hne hx.2
          have hprev : prev_spam_record (handle_spam_timeout sdb g e.1 now).1 g u
              = prev_spam_record sdb g u := by
            unfold prev_spam_record
            rw [hkeep]
          obtain ⟨ihA, ihB, ihC⟩ :=
            ih pr (handle_spam_timeout sdb g e.1 now).1 hnd.2 hmem'
          rw [check_spam_go_cons_timeout cm e rest pr sdb pT tT w g ch owner now h1]
          refine ⟨?_, ?_, ?_⟩
          · rw [List.filter_append, ihA, handle_spam_timeout_snd, hprev]
            simp [isTimeoutFor, hne]
          · rw [List.filter_append, ihB, handle_spam_timeout_snd]
            simp [isPromptFor]
          · rw [ihC, hprev]
        · by_cases h2 : pT ≤ get_activity_count cm e.1 w now
          · by_cases h3 : was_recently_prompted pr e.1 now = true
            · obtain ⟨ihA, ihB, ihC⟩ := ih pr sdb hnd.2 hmem'
              rw [check_spam_go_cons_prompt_old cm e rest pr sdb pT tT w g ch
                owner now h1 h2 h3]
              exact ⟨ihA, ihB, ihC⟩
            · obtain ⟨ihA, ihB, ihC⟩ := ih (mark_prompted pr e.1 now) sdb hnd.2 hmem'
              simp only [Bool.not_eq_true] at h3
              rw [check_spam_go_cons_prompt_new cm e rest pr sdb pT tT w g ch
                owner now h1 h2 h3]
              refine ⟨?_, ?_, ihC⟩
              · rw [List.filter_cons]
                simp [isTimeoutFor, ihA]
              · rw [List.filter_cons]
                simp [isPromptFor, hne, ihB]
          · obtain ⟨ihA, ihB, ihC⟩ := ih pr sdb hnd.2 hmem'
            rw [check_spam_go_cons_skip cm e rest pr sdb pT tT w g ch owner
              now h1 h2]
            exact ⟨ihA, ihB, ihC⟩

/-! ## Claim C5 -/

/-- C5: with prompt_threshold 5, timeout_threshold 10 and a 60-second
window, a tracked user whose in-window join/leave count has reached the
timeout threshold receives exactly one timeout from the `check_spam` scan,
at level min(previous_level+1, 7): the increment is persisted (level,
`last_infraction_at` and `total_infractions` updated), the timeout duration
is the escalation policy's duration at the new level, and no owner prompt
is emitted for that user. -/
theorem spam_escalation_single_timeout (cm : ChannelActivity) (pr : PromptedMap)
    (sdb : SpamDb) (g ch owner u : Int) (now : Nat)
    (hnd : (cm.map Prod.fst).Nodup) (hmem : u ∈ cm.map Prod.fst)
    (hcnt : 10 ≤ get_activity_count cm u 60 now) :
    (check_spam cm pr sdb 5 10 60 g ch owner now).2.2.filter (isTimeoutFor u) =
      [Event.applyTimeout g u (get_timeout_duration
        (min ((prev_spam_record sdb g u).current_timeout_level + 1) 7))] ∧
    (check_spam cm pr sdb 5 10 60 g ch owner now).2.2.filter (isPromptFor u)
      = [] ∧
    spam_get (check_spam cm pr sdb 5 10 60 g ch owner now).1 g u =
      some (bump_spam (prev_spam_record sdb g u) now) ∧
    (bump_spam (prev_spam_record sdb g u) now).current_timeout_level =
      min ((prev_spam_record sdb g u).current_timeout_level + 1) 7 ∧
    (bump_spam (prev_spam_record sdb g u) now).last_infraction_at = some now ∧
    (bump_spam (prev_spam_record sdb g u) now).total_infractions =
      (prev_spam_record sdb g u).total_infractions + 1 := by
  obtain ⟨h1, h2, h3⟩ :=
    check_spam_go_present cm cm pr sdb 5 10 60 g ch owner now u hnd hmem hcnt
  exact ⟨h1, h2, h3, rfl, rfl, rfl⟩

/-- Witness for C5: one tracked user with 10 in-window events and no prior
spam record; the single timeout lands at level 1 (15-minute policy step is
level 0, so level 1 is the 1-hour duration). -/
theorem spam_escalation_single_timeout_witness :
    (((([(2, List.replicate 10 0)] : ChannelActivity).map Prod.fst).Nodup) ∧
     (2 : Int) ∈ ([(2, List.replicate 10 0)] : ChannelActivity).map Prod.fst ∧
     10 ≤ get_activity_count [(2, List.replicate 10 0)] 2 60 0) ∧
    ((check_spam [(2, List.replicate 10 0)] [] [] 5 10 60 1 10 3 0).2.2.filter
        (isTimeoutFor 2) =
      [Event.applyTimeout 1 2 (get_timeout_duration
        (min ((prev_spam_record [] 1 2).current_timeout_level + 1) 7))] ∧
     (check_spam [(2, List.replicate 10 0)] [] [] 5 10 60 1 10 3 0).2.2.filter
        (isPromptFor 2) = [] ∧
     spam_get (check_spam [(2, List.replicate 10 0)] [] [] 5 10 60 1 10 3 0).1
        1 2 = some (bump_spam (prev_spam_record [] 1 2) 0) ∧
     (bump_spam (prev_spam_record [] 1 2) 0).current_timeout_level =
       min ((prev_spam_record [] 1 2).current_timeout_level + 1) 7 ∧
     (bump_spam (prev_spam_record [] 1 2) 0).last_infraction_at = some 0 ∧
     (bump_spam (prev_spam_record [] 1 2) 0).total_infractions =
       (prev_spam_record [] 1 2).total_infractions + 1) :=
  ⟨⟨by decide, by decide, by decide⟩,
   spam_escalation_single_timeout [(2, List.replicate 10 0)] [] [] 1 10 3 2 0
     (by decide) (by decide) (by decide)⟩

/-! ## Claim C7 -/

lemma find?_eq_head_filter {α : Type} (p : α → Bool) (l : List α) :
    l.find? p = (l.filter p).head? := by
  induction l with
  | nil => rfl
  | cons a t ih =>
      by_cases h : p a = true
      · rw [List.find?_cons_of_pos t h, List.filter_cons_of_pos h]
        rfl
      · rw [List.find?_cons_of_neg t h,
          List.filter_cons_of_neg (by simpa using h)]
        exact ih

lemma get_channel_owner_set (cache : List (Int × Int)) (ch o : Int) :
    get_channel_owner (set_channel_owner cache ch o) ch = some o := by
  simp [get_channel_owner, set_channel_owner]

/-- C7 counterexample: owner of room 5 leaves with two non-bot members
remaining; ownership is transferred (cache now answers user 10), yet the
handler issues no call at all — in particular no permission-overwrite
rewrite for the new owner — refuting the "permission rewrite" part of the
claim at this input. -/
theorem transfer_ownership_no_permission_rewrite :
    get_channel_owner (handle_owner_leave
        ⟨[⟨5, 1, 9, none, []⟩], [(5, 9)], [], [], []⟩
        [(10, some 5), (11, some 5)] [(10, false), (11, false)] 5).1.channel_owners
      5 = some 10 ∧
    (handle_owner_leave ⟨[⟨5, 1, 9, none, []⟩], [(5, 9)], [], [], []⟩
        [(10, some 5), (11, some 5)] [(10, false), (11, false)] 5).2 = [] ∧
    Event.editPermission 5 10 ∉
      (handle_owner_leave ⟨[⟨5, 1, 9, none, []⟩], [(5, 9)], [], [], []⟩
        [(10, some 5), (11, some 5)] [(10, false), (11, false)] 5).2 := by
  refine ⟨by decide, by decide, by decide⟩

/-- C7 (amended): with fewer than 2 remaining members the room is deleted;
otherwise ownership transfers to the first eligible non-bot member in
voice-state iteration order (`get_next_owner` is the head of the filtered
iteration), persisting the new owner and updating the ownership cache — but
no permission rewrite is performed (the transfer issues no platform call);
when no eligible member exists the room is deleted instead. Deletion
removes the persisted row and the cache entry and issues the platform
channel deletion. -/
theorem owner_leave_amended (st : BotState) (vs : VoiceStates)
    (members : Members) (ch o : Int) :
    (get_channel_member_count vs ch < 2 →
       handle_owner_leave st vs members ch = delete_channel st ch) ∧
    (2 ≤ get_channel_member_count vs ch →
       get_next_owner vs members ch = some o →
       handle_owner_leave st vs members ch = transfer_ownership st ch o ∧
       get_channel_owner (transfer_ownership st ch o).1.channel_owners ch
         = some o ∧
       (∀ v ∈ st.vcDb, v.channel_id = ch →
          { v with owner_id := o } ∈ (transfer_ownership st ch o).1.vcDb) ∧
       (transfer_ownership st ch o).2 = []) ∧
    (2 ≤ get_channel_member_count vs ch →
       get_next_owner vs members ch = none →
       handle_owner_leave st vs members ch = delete_channel st ch) ∧
    get_next_owner vs members ch =
      ((vs.filter (eligible_owner members ch)).head?).map Prod.fst ∧
    vc_get (delete_channel st ch).1.vcDb ch = none ∧
    get_channel_owner (delete_channel st ch).1.channel_owners ch = none ∧
    (delete_channel st ch).2 = [Event.deleteDiscordChannel ch] := by
  refine ⟨?_, ?_, ?_, ?_, ?_, ?_, rfl⟩
  · intro hlt
    simp [handle_owner_leave, hlt]
  · intro hge hnext
    have hlt : ¬ get_channel_member_count vs ch < 2 := Nat.not_lt.mpr hge
    refine ⟨by simp [handle_owner_leave, hlt, hnext], get_channel_owner_set _ ch o,
      ?_, rfl⟩
    intro v hv hvch
    simp only [transfer_ownership, List.mem_map]
    exact ⟨v, hv, by simp [hvch]⟩
  · intro hge hnone
    have hlt : ¬ get_channel_member_count vs ch < 2 := Nat.not_lt.mpr hge
    simp [handle_owner_leave, hlt, hnone]
  · unfold get_next_owner
    rw [find?_eq_head_filter]
  · simp only [delete_channel, vc_get]
    rw [List.find?_eq_none]
    intro v hv
    have := (List.mem_filter.mp hv).2
    simp at this
    simp [this]
  · simp only [delete_channel, get_channel_owner]
    rw [show (List.find? (fun e => e.1 == ch)
        (st.channel_owners.filter fun e => !(e.1 == ch))) = none from ?_]
    · rfl
    · rw [List.find?_eq_none]
      intro v hv
      have := (List.mem_filter.mp hv).2
      simp at this
      simp [this]

/-- Witness for C7's amended theorem at the counterexample's configuration
(two remaining members, the first of which is an eligible non-bot). -/
theorem owner_leave_amended_witness :
    (get_channel_member_count [(10, some 5), (11, some 5)] 5 < 2 →
       handle_owner_leave ⟨[⟨5, 1, 9, none, []⟩], [(5, 9)], [], [], []⟩
           [(10, some 5), (11, some 5)] [(10, false), (11, false)] 5 =
         delete_channel ⟨[⟨5, 1, 9, none, []⟩], [(5, 9)], [], [], []⟩ 5) ∧
    (2 ≤ get_channel_member_count [(10, some 5), (11, some 5)] 5 →
       get_next_owner [(10, some 5), (11, some 5)] [(10, false), (11, false)] 5
         = some 10 →
       handle_owner_leave ⟨[⟨5, 1, 9, none, []⟩], [(5, 9)], [], [], []⟩
           [(10, some 5), (11, some 5)] [(10, false), (11, false)] 5 =
         transfer_ownership ⟨[⟨5, 1, 9, none, []⟩], [(5, 9)], [], [], []⟩ 5 10 ∧
       get_channel_owner (transfer_ownership
           ⟨[⟨5, 1, 9, none, []⟩], [(5, 9)], [], [], []⟩ 5 10).1.channel_owners 5
         = some 10 ∧
       (∀ v ∈ ([⟨5, 1, 9, none, []⟩] : VcDb), v.channel_id = 5 →
          { v with owner_id := 10 } ∈ (transfer_ownership
            ⟨[⟨5, 1, 9, none, []⟩], [(5, 9)], [], [], []⟩ 5 10).1.vcDb) ∧
       (transfer_ownership ⟨[⟨5, 1, 9, none, []⟩], [(5, 9)], [], [], []⟩ 5 10).2
         = []) ∧
    (2 ≤ get_channel_member_count [(10, some 5), (11, some 5)] 5 →
       get_next_owner [(10, some 5), (11, some 5)] [(10, false), (11, false)] 5
         = none →
       handle_owner_leave ⟨[⟨5, 1, 9, none, []⟩], [(5, 9)], [], [], []⟩
           [(10, some 5), (11, some 5)] [(10, false), (11, false)] 5 =
         delete_channel ⟨[⟨5, 1, 9, none, []⟩], [(5, 9)], [], [], []⟩ 5) ∧
    get_next_owner [(10, some 5), (11, some 5)] [(10, false), (11, false)] 5 =
      (([(10, some 5), (11, some 5)] : VoiceStates).filter
        (eligible_owner [(10, false), (11, false)] 5)).head?.map Prod.fst ∧
    vc_get (delete_channel ⟨[⟨5, 1, 9, none, []⟩], [(5, 9)], [], [], []⟩
        5).1.vcDb 5 = none ∧
    get_channel_owner (delete_channel
        ⟨[⟨5, 1, 9, none, []⟩], [(5, 9)], [], [], []⟩ 5).1.channel_owners 5
      = none ∧
    (delete_channel ⟨[⟨5, 1, 9, none, []⟩], [(5, 9)], [], [], []⟩ 5).2 =
      [Event.deleteDiscordChannel 5] :=
  owner_leave_amended ⟨[⟨5, 1, 9, none, []⟩], [(5, 9)], [], [], []⟩
    [(10, some 5), (11, some 5)] [(10, false), (11, false)] 5 10

/-! ## Claim C6 -/

/-- C6: the 30-day reset is never consulted. A record at level 3 whose last
infraction lies 31 days in the past satisfies `SpamRecord.should_reset`,
yet the escalation path (`handle_spam_timeout`) punishes the next
infraction at level 4 = previous+1 — not starting over from level 0 — and
persists level 4; the reset helpers exist in the source but no caller
invokes them. -/
theorem spam_reset_never_applied :
    SpamRecord.should_reset ⟨1, 2, 3, some 0, 3⟩ 2678400 = true ∧
    spam_get (handle_spam_timeout [⟨1, 2, 3, some 0, 3⟩] 1 2 2678400).1 1 2 =
      some ⟨1, 2, 4, some 2678400, 4⟩ ∧
    (handle_spam_timeout [⟨1, 2, 3, some 0, 3⟩] 1 2 2678400).2 =
      [Event.applyTimeout 1 2 (get_timeout_duration 4)] := by
  refine ⟨by decide, by decide, by decide⟩

/-! ## Claim C9 -/

/-- C9: deleting a managed room does not discard its in-memory activity
state. `delete_channel` removes the persisted row and the cache entry and
issues the platform deletion, but both `ActivityTracker` maps still hold
channel 5's per-user windows and prompted markers afterwards; the
`cleanup_channel` helper the source defines for exactly this purpose would
remove them, but no deletion path invokes it. -/
theorem delete_channel_keeps_tracker_state :
    ((delete_channel ⟨[⟨5, 1, 2, none, []⟩], [(5, 2)], [],
        [(5, [(7, [100])])], [(5, [(7, 50)])]⟩ 5).1.tracker_activity =
      [(5, [(7, [100])])] ∧
     (delete_channel ⟨[⟨5, 1, 2, none, []⟩], [(5, 2)], [],
        [(5, [(7, [100])])], [(5, [(7, 50)])]⟩ 5).1.tracker_prompted =
      [(5, [(7, 50)])] ∧
     vc_get (delete_channel ⟨[⟨5, 1, 2, none, []⟩], [(5, 2)], [],
        [(5, [(7, [100])])], [(5, [(7, 50)])]⟩ 5).1.vcDb 5 = none ∧
     (delete_channel ⟨[⟨5, 1, 2, none, []⟩], [(5, 2)], [],
        [(5, [(7, [100])])], [(5, [(7, 50)])]⟩ 5).2 =
       [Event.deleteDiscordChannel 5]) ∧
    (cleanup_channel (delete_channel ⟨[⟨5, 1, 2, none, []⟩], [(5, 2)], [],
        [(5, [(7, [100])])], [(5, [(7, 50)])]⟩ 5).1 5).tracker_activity = [] ∧
    (cleanup_channel (delete_channel ⟨[⟨5, 1, 2, none, []⟩], [(5, 2)], [],
        [(5, [(7, [100])])], [(5, [(7, 50)])]⟩ 5).1 5).tracker_prompted = [] := by
  refine ⟨⟨by decide, by decide, by decide, by decide⟩, by decide, by decide⟩

/-! ## Claim C8 -/

lemma vc_get_append_fresh (db : VcDb) (vc : VoiceChannel)
    (h : vc_get db vc.channel_id = none) :
    vc_get (db ++ [vc]) vc.channel_id = some vc := by
  unfold vc_get at h ⊢
  rw [List.find?_append, h]
  simp

lemma deadline_get_append_fresh (dls : List PendingVcDeadline)
    (d : PendingVcDeadline) (h : deadline_get dls d.channel_id = none) :
    deadline_get (dls ++ [d]) d.channel_id = some d := by
  unfold deadline_get at h ⊢
  rw [List.find?_append, h]
  simp

lemma create_deadline_fresh (dls : List PendingVcDeadline) (ch g o : Int)
    (at_ : Nat) (h : deadline_get dls ch = none) :
    create_deadline dls ch g o at_ = dls ++ [⟨ch, g, o, at_⟩] := by
  have hany : (dls.any fun d => d.channel_id == ch) = false := by
    rw [List.any_eq_false]
    intro d hd
    have := List.find?_eq_none.mp h d hd
    simpa using this
  simp [create_deadline, hany]

/-- C8: with a configured category for the requested kind, a saved
preference makes the flow create the room immediately, handing the saved
name and tags verbatim to the created row (and naming the platform channel
after the saved name when one is set), recording no deadline and emitting
no naming prompt; without a preference the room is created under the
placeholder name, a PendingDeadline at now + VC_NAMING_DEADLINE_SECONDS is
recorded, and the naming prompt is emitted; a missing guild config or a
missing category mapping for the kind fails with `JtcNotConfigured`. -/
theorem start_jtc_flow_spec (st : BotState) (cfg : GuildConfig)
    (g u new_ch : Int) (is_casual : Bool) (now : Nat) (cat : Int)
    (hcat : cfg.category_id is_casual = some cat)
    (hvc : vc_get st.vcDb new_ch = none)
    (hdl : deadline_get st.deadlines new_ch = none) :
    (∀ p : UserVcPreference,
       ∃ st1 evs,
         start_jtc_flow st (some p) (some cfg) g u new_ch is_casual now =
           .ok (st1, evs) ∧
         st1.deadlines = st.deadlines ∧
         (∀ c v, Event.namingPrompt c v ∉ evs) ∧
         vc_get st1.vcDb new_ch =
           some ⟨new_ch, g, u, p.preferred_name, p.preferred_tags⟩ ∧
         (∀ n, p.preferred_name = some n →
            Event.createDiscordChannel new_ch n ∈ evs)) ∧
    (∃ st1 evs,
       start_jtc_flow st none (some cfg) g u new_ch is_casual now =
         .ok (st1, evs) ∧
       deadline_get st1.deadlines new_ch =
         some ⟨new_ch, g, u, now + VC_NAMING_DEADLINE_SECONDS⟩ ∧
       Event.namingPrompt new_ch u ∈ evs ∧
       Event.createDiscordChannel new_ch
         (if is_casual then "Casual VC" else "Debate VC") ∈ evs ∧
       vc_get st1.vcDb new_ch = some ⟨new_ch, g, u, none, []⟩) ∧
    (∀ prefs : Option UserVcPreference,
       start_jtc_flow st prefs none g u new_ch is_casual now =
         .error .notConfigured) ∧
    (∀ (prefs : Option UserVcPreference) (cfg2 : GuildConfig),
       cfg2.category_id is_casual = none →
       start_jtc_flow st prefs (some cfg2) g u new_ch is_casual now =
         .error .notConfigured) := by
  refine ⟨?_, ?_, ?_, ?_⟩
  · intro p
    have hflow : start_jtc_flow st (some p) (some cfg) g u new_ch is_casual now =
        .ok ({ st with
                vcDb := st.vcDb ++
                  [⟨new_ch, g, u, p.preferred_name, p.preferred_tags⟩],
                channel_owners := set_channel_owner st.channel_owners new_ch u },
             [Event.createDiscordChannel new_ch
                (match p.preferred_name with
                 | some t => t
                 | none => if is_casual then "Casual VC" else "Debate VC"),
              Event.moveUser g u new_ch] ++
             (if p.preferred_tags.isEmpty then []
              else [Event.setChannelStatus new_ch p.preferred_tags]) ++
             [Event.welcome new_ch u]) := by
      unfold start_jtc_flow create_channel
      dsimp only
      rw [hcat]
    refine ⟨_, _, hflow, rfl, ?_, ?_, ?_⟩
    · intro c v hmem
      by_cases ht : p.preferred_tags.isEmpty = true <;> simp [ht] at hmem
    · exact vc_get_append_fresh st.vcDb ⟨new_ch, g, u, p.preferred_name,
        p.preferred_tags⟩ hvc
    · intro n hn
      simp [hn]
  · have hflow : start_jtc_flow st none (some cfg) g u new_ch is_casual now =
        .ok ({ st with
                vcDb := st.vcDb ++ [⟨new_ch, g, u, none, []⟩],
                channel_owners := set_channel_owner st.channel_owners new_ch u,
                deadlines := create_deadline st.deadlines new_ch g u
                  (now + VC_NAMING_DEADLINE_SECONDS) },
             ([Event.createDiscordChannel new_ch
                 (if is_casual then "Casual VC" else "Debate VC"),
               Event.moveUser g u new_ch] ++ [] ++ [Event.welcome new_ch u]) ++
             [Event.namingPrompt new_ch u]) := by
      unfold start_jtc_flow create_channel
      dsimp only
      rw [hcat]
      rfl
    refine ⟨_, _, hflow, ?_, ?_, ?_, ?_⟩
    · show deadline_get (create_deadline st.deadlines new_ch g u
        (now + VC_NAMING_DEADLINE_SECONDS)) new_ch = _
      rw [create_deadline_fresh st.deadlines new_ch g u
        (now + VC_NAMING_DEADLINE_SECONDS) hdl]
      exact deadline_get_append_fresh st.deadlines
        ⟨new_ch, g, u, now + VC_NAMING_DEADLINE_SECONDS⟩ hdl
    · simp
    · simp
    · exact vc_get_append_fresh st.vcDb ⟨new_ch, g, u, none, []⟩ hvc
  · intro prefs
    cases prefs <;> simp [start_jtc_flow, create_channel]
  · intro prefs cfg2 hnone
    cases prefs <;> simp [start_jtc_flow, create_channel, hnone]

/-- Witness for C8: an empty state with category 50 configured for the
casual kind; the preference-less flow creates channel 30 and records a
deadline at 100 + VC_NAMING_DEADLINE_SECONDS. -/
theorem start_jtc_flow_spec_witness :
    (⟨some 50, some 60⟩ : GuildConfig).category_id true = some 50 ∧
    vc_get ([] : VcDb) 30 = none ∧
    deadline_get ([] : List PendingVcDeadline) 30 = none ∧
    (∃ st1 evs,
       start_jtc_flow ⟨[], [], [], [], []⟩ none (some ⟨some 50, some 60⟩)
           1 2 30 true 100 = .ok (st1, evs) ∧
       deadline_get st1.deadlines 30 =
         some ⟨30, 1, 2, 100 + VC_NAMING_DEADLINE_SECONDS⟩ ∧
       Event.namingPrompt 30 2 ∈ evs ∧
       Event.createDiscordChannel 30
         (if true then "Casual VC" else "Debate VC") ∈ evs ∧
       vc_get st1.vcDb 30 = some ⟨30, 1, 2, none, []⟩) :=
  ⟨rfl, rfl, rfl,
   (start_jtc_flow_spec ⟨[], [], [], [], []⟩ ⟨some 50, some 60⟩ 1 2 30 true
     100 50 rfl rfl rfl).2.1⟩

end Jarvis
